import Mathlib

/-!
Verification development for the Swedish word-clock fabrication-file
generators (`src/laser/generate-frontplate-test.js` and the backplate STL
generator contained in `src/laser/generate-laser-files.js`).

The geometry pipeline is embedded shallowly: lengths are exact rationals
(the JS sources only ever combine the integer-valued millimetre constants
with `+`, `-`, `*`, `/`, so every value they compute is rational), meshes
are lists of primitives (boxes / cylinder rings) in the order the builders
emit them, and the facet-normal computation of `STLBuilder.addTriangle` is
modelled over the real numbers.
-/

namespace WordClock

/- The JS sources bind several locals they never read (dead code kept in
the embedding for faithfulness); silence the corresponding linter. -/
set_option linter.unusedVariables false

/-! ### Shared millimetre constants (identical in both generator files) -/

def COLS : ℕ := 11
def ROWS : ℕ := 10
def PITCH : ℚ := 45
def WALL_THICKNESS : ℚ := 3
def CUTOUT : ℚ := 37
def FRAME_BORDER : ℚ := 15
def COL_SPLITS : List ℕ := [4, 4, 3]
def ROW_SPLITS : List ℕ := [4, 3, 3]

/-- An axis-aligned box as passed to `STLBuilder.addBox(x, y, z, w, d, h)`. -/
structure Box where
  x : ℚ
  y : ℚ
  z : ℚ
  w : ℚ
  d : ℚ
  h : ℚ
deriving DecidableEq

/-- Parameters of one `addHole` / `addCylinder` call (polygonal ring). -/
structure Ring where
  cx : ℚ
  cy : ℚ
  z : ℚ
  r : ℚ
  h : ℚ
  segments : ℕ
deriving DecidableEq

/-- A mesh primitive: every triangle the builders emit comes from one of
these two constructors. -/
inductive Prim where
  | box : Box → Prim
  | ring : Ring → Prim
deriving DecidableEq

/-- `true` exactly on `Prim.ring`: marker-hole / cylinder geometry. -/
def Prim.isRing : Prim → Bool
  | .box _ => false
  | .ring _ => true

/-! ### Section splitting (the main loops of both generators)

Both `main` loops iterate the row groups outermost and the column groups
innermost, accumulating running `colStart` / `rowStart` offsets. -/

/-- One section of the split plan:
`(colStart, colCount, rowStart, rowCount, secCol, secRow)`. -/
structure SectionInfo where
  colStart : ℕ
  colCount : ℕ
  rowStart : ℕ
  rowCount : ℕ
  secCol : ℕ
  secRow : ℕ
deriving DecidableEq

/-- Running-offset enumeration of a split list: index, start offset, size. -/
def withStartsAux : ℕ → ℕ → List ℕ → List (ℕ × ℕ × ℕ)
  | _, _, [] => []
  | i, s, c :: rest => (i, s, c) :: withStartsAux (i + 1) (s + c) rest

def withStarts (splits : List ℕ) : List (ℕ × ℕ × ℕ) :=
  withStartsAux 0 0 splits

/-- The sections generated by the nested `for (sr) { for (sc) ... }` loops:
row-major (outer loop over row groups, inner loop over column groups). -/
def planSections (colSplits rowSplits : List ℕ) : List SectionInfo :=
  (withStarts rowSplits).flatMap fun rg =>
    (withStarts colSplits).map fun cg =>
      ⟨cg.2.1, cg.2.2, rg.2.1, rg.2.2, cg.1, rg.1⟩

/-! ### Frontplate test generator (`generate-frontplate-test.js`) -/

namespace Front

def PANEL_THICKNESS : ℚ := 3

/-- `cellMargin = (PITCH - CUTOUT) / 2` (margin around each cutout). -/
def cellMargin : ℚ := (PITCH - CUTOUT) / 2

/-- `sectionW = colCount * PITCH + WALL_THICKNESS` (local of
`generateFrontSection`). -/
def sectionW (colCount : ℕ) : ℚ := colCount * PITCH + WALL_THICKNESS

/-- `sectionD = rowCount * PITCH + WALL_THICKNESS`. -/
def sectionD (rowCount : ℕ) : ℚ := rowCount * PITCH + WALL_THICKNESS

/-- Border flag `hasLeftBorder = (secCol === 0)`. -/
def hasLeftBorder (secCol : ℕ) : Bool := secCol == 0

/-- Border flag `hasRightBorder = (secCol === COL_SPLITS.length - 1)`. -/
def hasRightBorder (secCol : ℕ) : Bool := secCol == COL_SPLITS.length - 1

/-- Border flag `hasTopBorder = (secRow === 0)`. -/
def hasTopBorder (secRow : ℕ) : Bool := secRow == 0

/-- Border flag `hasBottomBorder = (secRow === ROW_SPLITS.length - 1)`. -/
def hasBottomBorder (secRow : ℕ) : Bool := secRow == ROW_SPLITS.length - 1

/-- `(stripY, stripH)` of the horizontal full-width strip at row index `r`
(the `for (let r = 0; r <= rowCount; r++)` loop). -/
def hStrip (rowCount r : ℕ) : ℚ × ℚ :=
  if r = 0 then
    (0, cellMargin)
  else if r = rowCount then
    let stripY : ℚ := r * PITCH - cellMargin + CUTOUT
    (stripY, sectionD rowCount - stripY)
  else
    ((r : ℚ) * PITCH - cellMargin + CUTOUT, PITCH - CUTOUT)

/-- The horizontal strip boxes actually emitted: a strip is added only when
`stripH > 0.01`. -/
def hStrips (colCount rowCount : ℕ) : List Box :=
  (List.range (rowCount + 1)).filterMap fun r =>
    let s := hStrip rowCount r
    if s.2 > 0.01 then some ⟨0, s.1, 0, sectionW colCount, s.2, PANEL_THICKNESS⟩
    else none

/-- `(stripX, stripW)` of the vertical strip at column boundary `c`. -/
def vStrip (colCount c : ℕ) : ℚ × ℚ :=
  if c = 0 then
    (0, cellMargin)
  else if c = colCount then
    let stripX : ℚ := c * PITCH - cellMargin + CUTOUT
    (stripX, sectionW colCount - stripX)
  else
    ((c : ℚ) * PITCH - cellMargin + CUTOUT, PITCH - CUTOUT)

/-- The vertical strip boxes emitted in each window row (height `CUTOUT`,
starting at `winY = r * PITCH + cellMargin`), gated on `stripW > 0.01`. -/
def vStrips (colCount rowCount : ℕ) : List Box :=
  (List.range rowCount).flatMap fun r =>
    let winY : ℚ := (r : ℚ) * PITCH + cellMargin
    (List.range (colCount + 1)).filterMap fun c =>
      let s := vStrip colCount c
      if s.2 > 0.01 then some ⟨s.1, winY, 0, s.2, CUTOUT, PANEL_THICKNESS⟩
      else none

/-- The frame-border extension boxes for edge sections, in source order
(left, right, top, bottom). -/
def borderBoxes (colCount rowCount secCol secRow : ℕ) : List Box :=
  let w := sectionW colCount
  let d := sectionD rowCount
  (if hasLeftBorder secCol then
    [⟨-FRAME_BORDER, if hasTopBorder secRow then -FRAME_BORDER else 0, 0,
      FRAME_BORDER,
      d + (if hasTopBorder secRow then FRAME_BORDER else 0)
        + (if hasBottomBorder secRow then FRAME_BORDER else 0),
      PANEL_THICKNESS⟩]
   else []) ++
  (if hasRightBorder secCol then
    [⟨w, if hasTopBorder secRow then -FRAME_BORDER else 0, 0,
      FRAME_BORDER,
      d + (if hasTopBorder secRow then FRAME_BORDER else 0)
        + (if hasBottomBorder secRow then FRAME_BORDER else 0),
      PANEL_THICKNESS⟩]
   else []) ++
  (if hasTopBorder secRow then [⟨0, -FRAME_BORDER, 0, w, FRAME_BORDER, PANEL_THICKNESS⟩]
   else []) ++
  (if hasBottomBorder secRow then [⟨0, d, 0, w, FRAME_BORDER, PANEL_THICKNESS⟩]
   else [])

/-- Return value of `generateFrontSection`: the solid name, the mesh (as
the ordered list of primitives the builder received), and the returned
`sectionW` / `sectionD` fields (footprint including borders). -/
structure FrontOutput where
  name : String
  mesh : List Prim
  retW : ℚ
  retD : ℚ
deriving DecidableEq

/-- Shallow embedding of `generateFrontSection`.  The first vertical-bar
loop of the source (lines 112–132) only computes local variables that are
discarded, so it contributes nothing to the builder; the dead locals
`globalOffsetX` … `panelH` (lines 194–199) are kept as unused bindings. -/
def generateFrontSection (colStart colCount rowStart rowCount secCol secRow : ℕ) :
    FrontOutput :=
  let w := sectionW colCount
  let d := sectionD rowCount
  let globalOffsetX : ℚ := colStart * PITCH
  let globalOffsetY : ℚ := rowStart * PITCH
  let gridW : ℚ := COLS * PITCH
  let gridH : ℚ := ROWS * PITCH
  let panelW : ℚ := gridW + 2 * FRAME_BORDER
  let panelH : ℚ := gridH + 2 * FRAME_BORDER
  { name := "frontplate_" ++ toString secCol ++ "_" ++ toString secRow
    mesh :=
      ((hStrips colCount rowCount ++ vStrips colCount rowCount
        ++ borderBoxes colCount rowCount secCol secRow).map Prim.box)
    retW := w + (if hasLeftBorder secCol then FRAME_BORDER else 0)
              + (if hasRightBorder secCol then FRAME_BORDER else 0)
    retD := d + (if hasTopBorder secRow then FRAME_BORDER else 0)
              + (if hasBottomBorder secRow then FRAME_BORDER else 0) }

/-- The frontplate main loop: one output file (name, section output) per
plan entry.  There is no validation of the split lists anywhere on this
path. -/
def runFrontplate (colSplits rowSplits : List ℕ) : List (String × FrontOutput) :=
  (planSections colSplits rowSplits).map fun s =>
    ("frontplate_test_" ++ toString s.secCol ++ "_" ++ toString s.secRow ++ ".stl",
     generateFrontSection s.colStart s.colCount s.rowStart s.rowCount s.secCol s.secRow)

end Front

/-! ### Backplate generator (the STL part of `generate-laser-files.js`) -/

namespace Back

def WALL_HEIGHT : ℚ := 20
def BASE_THICKNESS : ℚ := 2
def WIRE_NOTCH_W : ℚ := 4
def WIRE_NOTCH_H : ℚ := 5
def LED_HOLE_DIA : ℚ := 6
def TAB_WIDTH : ℚ := 10
def TAB_DEPTH : ℚ := 3
def TAB_HEIGHT : ℚ := 10

/-- `cellInner = PITCH - WALL_THICKNESS`. -/
def cellInner : ℚ := PITCH - WALL_THICKNESS

/-- `sectionW = colCount * PITCH + WALL_THICKNESS` (walls on both sides). -/
def sectionW (colCount : ℕ) : ℚ := colCount * PITCH + WALL_THICKNESS

/-- `sectionD = rowCount * PITCH + WALL_THICKNESS`. -/
def sectionD (rowCount : ℕ) : ℚ := rowCount * PITCH + WALL_THICKNESS

/-- The boxes of the vertical-wall segment at divider `c`, cell row `r`:
an interior divider (`c > 0 && c < colCount`) becomes three boxes (the
full-length part above the wire notch plus the two flanks beside the
centred notch below notch height); an edge divider is one solid box. -/
def vWallBoxes (colCount c r : ℕ) : List Box :=
  let wx : ℚ := c * PITCH
  let wy : ℚ := r * PITCH + WALL_THICKNESS
  let wallLen := cellInner
  if 0 < c ∧ c < colCount then
    let notchStart := wy + (wallLen - WIRE_NOTCH_W) / 2
    [⟨wx, wy, BASE_THICKNESS + WIRE_NOTCH_H, WALL_THICKNESS, wallLen,
      WALL_HEIGHT - WIRE_NOTCH_H⟩,
     ⟨wx, wy, BASE_THICKNESS, WALL_THICKNESS, (wallLen - WIRE_NOTCH_W) / 2,
      WIRE_NOTCH_H⟩,
     ⟨wx, notchStart + WIRE_NOTCH_W, BASE_THICKNESS, WALL_THICKNESS,
      (wallLen - WIRE_NOTCH_W) / 2, WIRE_NOTCH_H⟩]
  else
    [⟨wx, wy, BASE_THICKNESS, WALL_THICKNESS, wallLen, WALL_HEIGHT⟩]

/-- Pillar box at the intersection of vertical divider `c` and row wall `r`. -/
def pillarBox (c r : ℕ) : Box :=
  ⟨(c : ℚ) * PITCH, (r : ℚ) * PITCH, BASE_THICKNESS, WALL_THICKNESS,
   WALL_THICKNESS, WALL_HEIGHT⟩

/-- The boxes of the horizontal-wall segment at divider `r`, cell column
`c` (mirror of `vWallBoxes`). -/
def hWallBoxes (rowCount r c : ℕ) : List Box :=
  let wy : ℚ := r * PITCH
  let wx : ℚ := c * PITCH + WALL_THICKNESS
  let wallLen := cellInner
  if 0 < r ∧ r < rowCount then
    let notchStart := wx + (wallLen - WIRE_NOTCH_W) / 2
    [⟨wx, wy, BASE_THICKNESS + WIRE_NOTCH_H, wallLen, WALL_THICKNESS,
      WALL_HEIGHT - WIRE_NOTCH_H⟩,
     ⟨wx, wy, BASE_THICKNESS, (wallLen - WIRE_NOTCH_W) / 2, WALL_THICKNESS,
      WIRE_NOTCH_H⟩,
     ⟨notchStart + WIRE_NOTCH_W, wy, BASE_THICKNESS, (wallLen - WIRE_NOTCH_W) / 2,
      WALL_THICKNESS, WIRE_NOTCH_H⟩]
  else
    [⟨wx, wy, BASE_THICKNESS, wallLen, WALL_THICKNESS, WALL_HEIGHT⟩]

/-- LED guide rings: one `addCylinder` per cell, on top of the base. -/
def ledRings (colCount rowCount : ℕ) : List Ring :=
  (List.range rowCount).flatMap fun r =>
    (List.range colCount).map fun c =>
      ⟨(c : ℚ) * PITCH + WALL_THICKNESS + cellInner / 2,
       (r : ℚ) * PITCH + WALL_THICKNESS + cellInner / 2,
       BASE_THICKNESS, LED_HOLE_DIA / 2 + 1, 0.5, 12⟩

/-- Right-edge interlocking tab boxes: present exactly when a column
neighbour exists (`secCol < COL_SPLITS.length - 1`); two tabs whose
centres sit at 1/3 and 2/3 of the shared edge length `sectionD`. -/
def tabsRight (colCount rowCount secCol : ℕ) : List Box :=
  if secCol < COL_SPLITS.length - 1 then
    (List.range 2).map fun t =>
      ⟨sectionW colCount, sectionD rowCount * ((t : ℚ) + 1) / 3 - TAB_WIDTH / 2,
       BASE_THICKNESS, TAB_DEPTH, TAB_WIDTH, TAB_HEIGHT⟩
  else []

/-- Top-edge interlocking tab boxes: present exactly when a row neighbour
exists (`secRow < ROW_SPLITS.length - 1`). -/
def tabsTop (colCount rowCount secRow : ℕ) : List Box :=
  if secRow < ROW_SPLITS.length - 1 then
    (List.range 2).map fun t =>
      ⟨sectionW colCount * ((t : ℚ) + 1) / 3 - TAB_WIDTH / 2, sectionD rowCount,
       BASE_THICKNESS, TAB_WIDTH, TAB_DEPTH, TAB_HEIGHT⟩
  else []

/-- Return value of the backplate `generateSection`. -/
structure BackOutput where
  name : String
  mesh : List Prim
  retW : ℚ
  retD : ℚ
  totalH : ℚ
  cells : ℕ
deriving DecidableEq

/-- Shallow embedding of the backplate `generateSection`, emitting the
primitives in source order: base plate, vertical walls with pillars,
horizontal walls, LED guide rings, right tabs, top tabs.  `colStart` and
`rowStart` are accepted but never read by the source. -/
def generateSection (colStart colCount rowStart rowCount secCol secRow : ℕ) :
    BackOutput :=
  { name := "backplate_" ++ toString secCol ++ "_" ++ toString secRow
    mesh :=
      Prim.box ⟨0, 0, 0, sectionW colCount, sectionD rowCount, BASE_THICKNESS⟩ ::
      (((List.range (colCount + 1)).flatMap fun c =>
          ((List.range rowCount).flatMap fun r => vWallBoxes colCount c r)
          ++ ((List.range (rowCount + 1)).map fun r => pillarBox c r)).map Prim.box)
      ++ (((List.range (rowCount + 1)).flatMap fun r =>
            (List.range colCount).flatMap fun c => hWallBoxes rowCount r c).map Prim.box)
      ++ ((ledRings colCount rowCount).map Prim.ring)
      ++ ((tabsRight colCount rowCount secCol).map Prim.box)
      ++ ((tabsTop colCount rowCount secRow).map Prim.box)
    retW := sectionW colCount
    retD := sectionD rowCount
    totalH := BASE_THICKNESS + WALL_HEIGHT
    cells := colCount * rowCount }

/-- The backplate main loop: one output file per plan entry, with no
validation of the split lists. -/
def runBackplate (colSplits rowSplits : List ℕ) : List (String × BackOutput) :=
  (planSections colSplits rowSplits).map fun s =>
    ("backplate_section_" ++ toString s.secCol ++ "_" ++ toString s.secRow ++ ".stl",
     generateSection s.colStart s.colCount s.rowStart s.rowCount s.secCol s.secRow)

end Back

/-! ### `STLBuilder.addTriangle` facet-normal computation

Both files contain the identical `addTriangle`: it computes the cross
product of the two edge vectors, and divides by its Euclidean length only
when that length is strictly positive.  Vertices produced by the
generators are rational; the length/normalisation step is modelled over
the reals. -/

/-- A stored triangle: the three vertices pushed by `addTriangle` (its
serialized normal is the derived `storedNormal` below). -/
structure Tri where
  v1 : ℚ × ℚ × ℚ
  v2 : ℚ × ℚ × ℚ
  v3 : ℚ × ℚ × ℚ
deriving DecidableEq

/-- `addTriangle` appends the triangle unconditionally: no rejection path
exists, degenerate or not. -/
def addTriangle (ts : List Tri) (v1 v2 v3 : ℚ × ℚ × ℚ) : List Tri :=
  ts ++ [⟨v1, v2, v3⟩]

/-- Componentwise difference (`u = v2 - v1`, `v = v3 - v1`). -/
def sub3 (a b : ℚ × ℚ × ℚ) : ℚ × ℚ × ℚ :=
  (a.1 - b.1, a.2.1 - b.2.1, a.2.2 - b.2.2)

/-- The cross product `n` of `addTriangle`. -/
def cross (u v : ℚ × ℚ × ℚ) : ℚ × ℚ × ℚ :=
  (u.2.1 * v.2.2 - u.2.2 * v.2.1,
   u.2.2 * v.1 - u.1 * v.2.2,
   u.1 * v.2.1 - u.2.1 * v.1)

/-- The cross product computed for a triangle's three vertices. -/
def triCross (v1 v2 v3 : ℚ × ℚ × ℚ) : ℚ × ℚ × ℚ :=
  cross (sub3 v2 v1) (sub3 v3 v1)

/-- `n[0]*n[0] + n[1]*n[1] + n[2]*n[2]` (the radicand of `len`). -/
def normSq (n : ℚ × ℚ × ℚ) : ℚ :=
  n.1 * n.1 + n.2.1 * n.2.1 + n.2.2 * n.2.2

/-- Squared Euclidean length of a real vector. -/
def rNormSq (v : ℝ × ℝ × ℝ) : ℝ :=
  v.1 * v.1 + v.2.1 * v.2.1 + v.2.2 * v.2.2

/-- `len = Math.sqrt(n[0]*n[0] + n[1]*n[1] + n[2]*n[2])`. -/
noncomputable def triLen (v1 v2 v3 : ℚ × ℚ × ℚ) : ℝ :=
  Real.sqrt ((normSq (triCross v1 v2 v3) : ℚ) : ℝ)

/-- The normal stored with the pushed triangle:
`if (len > 0) { n /= len }` — otherwise `n` is left as the raw cross
product. -/
noncomputable def storedNormal (v1 v2 v3 : ℚ × ℚ × ℚ) : ℝ × ℝ × ℝ :=
  if 0 < triLen v1 v2 v3 then
    (((triCross v1 v2 v3).1 : ℝ) / triLen v1 v2 v3,
     ((triCross v1 v2 v3).2.1 : ℝ) / triLen v1 v2 v3,
     ((triCross v1 v2 v3).2.2 : ℝ) / triLen v1 v2 v3)
  else
    (((triCross v1 v2 v3).1 : ℝ),
     ((triCross v1 v2 v3).2.1 : ℝ),
     ((triCross v1 v2 v3).2.2 : ℝ))

lemma normSq_nonneg (n : ℚ × ℚ × ℚ) : 0 ≤ normSq n :=
  add_nonneg (add_nonneg (mul_self_nonneg _) (mul_self_nonneg _)) (mul_self_nonneg _)

lemma normSq_eq_zero_iff (n : ℚ × ℚ × ℚ) : normSq n = 0 ↔ n = (0, 0, 0) := by
  constructor
  · intro h
    rw [normSq] at h
    have h1 : n.1 = 0 := by
      nlinarith [mul_self_nonneg n.1, mul_self_nonneg n.2.1, mul_self_nonneg n.2.2]
    have h2 : n.2.1 = 0 := by
      nlinarith [mul_self_nonneg n.1, mul_self_nonneg n.2.1, mul_self_nonneg n.2.2]
    have h3 : n.2.2 = 0 := by
      nlinarith [mul_self_nonneg n.1, mul_self_nonneg n.2.1, mul_self_nonneg n.2.2]
    obtain ⟨a, b, c⟩ := n
    simp_all
  · rintro rfl
    simp [normSq]

lemma normSq_pos {n : ℚ × ℚ × ℚ} (h : n ≠ (0, 0, 0)) : 0 < normSq n :=
  lt_of_le_of_ne (normSq_nonneg n) fun h0 =>
    h ((normSq_eq_zero_iff n).1 h0.symm)

lemma triLen_pos {v1 v2 v3 : ℚ × ℚ × ℚ} (h : triCross v1 v2 v3 ≠ (0, 0, 0)) :
    0 < triLen v1 v2 v3 := by
  unfold triLen
  exact Real.sqrt_pos.2 (by exact_mod_cast normSq_pos h)

lemma triLen_mul_self {v1 v2 v3 : ℚ × ℚ × ℚ} :
    triLen v1 v2 v3 * triLen v1 v2 v3 = ((normSq (triCross v1 v2 v3) : ℚ) : ℝ) := by
  unfold triLen
  exact Real.mul_self_sqrt (by exact_mod_cast normSq_nonneg _)

lemma triLen_of_cross_zero {v1 v2 v3 : ℚ × ℚ × ℚ}
    (h : triCross v1 v2 v3 = (0, 0, 0)) : triLen v1 v2 v3 = 0 := by
  unfold triLen
  rw [h]
  norm_num [normSq]

/-! ### Theorems for the frozen claims -/

/-- **C9.** `addTriangle` is total and never divides by zero: the
normalisation of the cross product is guarded by `len > 0`.  When the
cross product has zero length the stored normal is the zero vector (the
raw cross product, which is itself the zero vector), and otherwise the
stored normal is the cross product divided componentwise by its length. -/
theorem addTriangle_normal_guarded (v1 v2 v3 : ℚ × ℚ × ℚ) :
    (triCross v1 v2 v3 = (0, 0, 0) → storedNormal v1 v2 v3 = (0, 0, 0))
    ∧ (triCross v1 v2 v3 ≠ (0, 0, 0) →
        storedNormal v1 v2 v3 =
          (((triCross v1 v2 v3).1 : ℝ) / triLen v1 v2 v3,
           ((triCross v1 v2 v3).2.1 : ℝ) / triLen v1 v2 v3,
           ((triCross v1 v2 v3).2.2 : ℝ) / triLen v1 v2 v3)) := by
  constructor
  · intro h
    have hlen : triLen v1 v2 v3 = 0 := triLen_of_cross_zero h
    rw [storedNormal, if_neg (by rw [hlen]; exact lt_irrefl 0), h]
    norm_num
  · intro h
    rw [storedNormal, if_pos (triLen_pos h)]

/-- **C9 witness**: the guard at a fully degenerate triangle and at a
right triangle in the xy-plane. -/
theorem addTriangle_normal_guarded_witness :
    storedNormal ((0 : ℚ), (0 : ℚ), (0 : ℚ)) ((0 : ℚ), (0 : ℚ), (0 : ℚ))
        ((0 : ℚ), (0 : ℚ), (0 : ℚ)) = (0, 0, 0)
    ∧ storedNormal ((0 : ℚ), (0 : ℚ), (0 : ℚ)) ((1 : ℚ), (0 : ℚ), (0 : ℚ))
        ((0 : ℚ), (1 : ℚ), (0 : ℚ)) =
      (((triCross ((0 : ℚ), (0 : ℚ), (0 : ℚ)) ((1 : ℚ), (0 : ℚ), (0 : ℚ))
          ((0 : ℚ), (1 : ℚ), (0 : ℚ))).1 : ℝ) /
         triLen ((0 : ℚ), (0 : ℚ), (0 : ℚ)) ((1 : ℚ), (0 : ℚ), (0 : ℚ))
           ((0 : ℚ), (1 : ℚ), (0 : ℚ)),
       ((triCross ((0 : ℚ), (0 : ℚ), (0 : ℚ)) ((1 : ℚ), (0 : ℚ), (0 : ℚ))
          ((0 : ℚ), (1 : ℚ), (0 : ℚ))).2.1 : ℝ) /
         triLen ((0 : ℚ), (0 : ℚ), (0 : ℚ)) ((1 : ℚ), (0 : ℚ), (0 : ℚ))
           ((0 : ℚ), (1 : ℚ), (0 : ℚ)),
       ((triCross ((0 : ℚ), (0 : ℚ), (0 : ℚ)) ((1 : ℚ), (0 : ℚ), (0 : ℚ))
          ((0 : ℚ), (1 : ℚ), (0 : ℚ))).2.2 : ℝ) /
         triLen ((0 : ℚ), (0 : ℚ), (0 : ℚ)) ((1 : ℚ), (0 : ℚ), (0 : ℚ))
           ((0 : ℚ), (1 : ℚ), (0 : ℚ))) :=
  ⟨(addTriangle_normal_guarded _ _ _).1
     (by norm_num [triCross, cross, sub3, Prod.ext_iff]),
   (addTriangle_normal_guarded _ _ _).2
     (by norm_num [triCross, cross, sub3, Prod.ext_iff])⟩

/-- **C4 (amended).** `addTriangle` always appends the triangle — there is
no rejection or exclusion path — and every triangle whose cross product is
nonzero is stored with an exactly unit-length normal.  (Degenerate
triangles are stored too, with a zero normal: see the counterexample.) -/
theorem addTriangle_appends_and_unit_normal (ts : List Tri) (v1 v2 v3 : ℚ × ℚ × ℚ) :
    (addTriangle ts v1 v2 v3).length = ts.length + 1
    ∧ (triCross v1 v2 v3 ≠ (0, 0, 0) → rNormSq (storedNormal v1 v2 v3) = 1) := by
  refine ⟨by simp [addTriangle], fun h => ?_⟩
  have hlen := triLen_pos h
  rw [storedNormal, if_pos hlen]
  unfold rNormSq
  simp only
  rw [div_mul_div_comm, div_mul_div_comm, div_mul_div_comm, div_add_div_same,
    div_add_div_same, triLen_mul_self,
    div_eq_one_iff_eq (by exact_mod_cast ne_of_gt (normSq_pos h))]
  unfold normSq
  push_cast
  ring

/-- **C4 witness**: a non-degenerate triangle gets a unit normal. -/
theorem addTriangle_appends_and_unit_normal_witness :
    (addTriangle [] ((0 : ℚ), (0 : ℚ), (0 : ℚ)) ((2 : ℚ), (0 : ℚ), (0 : ℚ))
      ((0 : ℚ), (2 : ℚ), (0 : ℚ))).length = 1
    ∧ rNormSq (storedNormal ((0 : ℚ), (0 : ℚ), (0 : ℚ)) ((2 : ℚ), (0 : ℚ), (0 : ℚ))
        ((0 : ℚ), (2 : ℚ), (0 : ℚ))) = 1 :=
  ⟨(addTriangle_appends_and_unit_normal [] _ _ _).1,
   (addTriangle_appends_and_unit_normal [] _ _ _).2
     (by norm_num [triCross, cross, sub3, Prod.ext_iff])⟩

/-- **C4 counterexample.** A zero-area (collinear) triangle passed to
`addTriangle` is *not* rejected or excluded: it is appended to the
builder's triangle list (hence serialized), and its stored normal is the
zero vector, whose length is 0, not 1 — the claim that degenerate
triangles never appear in the serialized output is false. -/
theorem degenerate_triangle_in_output :
    triCross ((0 : ℚ), (0 : ℚ), (0 : ℚ)) ((1 : ℚ), (0 : ℚ), (0 : ℚ))
        ((2 : ℚ), (0 : ℚ), (0 : ℚ)) = (0, 0, 0)
    ∧ addTriangle [] ((0 : ℚ), (0 : ℚ), (0 : ℚ)) ((1 : ℚ), (0 : ℚ), (0 : ℚ))
        ((2 : ℚ), (0 : ℚ), (0 : ℚ)) =
      [⟨((0 : ℚ), (0 : ℚ), (0 : ℚ)), ((1 : ℚ), (0 : ℚ), (0 : ℚ)),
        ((2 : ℚ), (0 : ℚ), (0 : ℚ))⟩]
    ∧ storedNormal ((0 : ℚ), (0 : ℚ), (0 : ℚ)) ((1 : ℚ), (0 : ℚ), (0 : ℚ))
        ((2 : ℚ), (0 : ℚ), (0 : ℚ)) = (0, 0, 0)
    ∧ rNormSq (storedNormal ((0 : ℚ), (0 : ℚ), (0 : ℚ)) ((1 : ℚ), (0 : ℚ), (0 : ℚ))
        ((2 : ℚ), (0 : ℚ), (0 : ℚ))) ≠ 1 := by
  have hcross : triCross ((0 : ℚ), (0 : ℚ), (0 : ℚ)) ((1 : ℚ), (0 : ℚ), (0 : ℚ))
      ((2 : ℚ), (0 : ℚ), (0 : ℚ)) = (0, 0, 0) := by
    norm_num [triCross, cross, sub3, Prod.ext_iff]
  have hsn : storedNormal ((0 : ℚ), (0 : ℚ), (0 : ℚ)) ((1 : ℚ), (0 : ℚ), (0 : ℚ))
      ((2 : ℚ), (0 : ℚ), (0 : ℚ)) = (0, 0, 0) := by
    rw [storedNormal,
      if_neg (by rw [triLen_of_cross_zero hcross]; exact lt_irrefl 0), hcross]
    norm_num
  exact ⟨hcross, rfl, hsn, by rw [hsn]; norm_num [rNormSq]⟩

/-! ### Helper evaluations of the concrete generation run -/

lemma range2 : List.range 2 = [0, 1] := rfl

lemma range4 : List.range 4 = [0, 1, 2, 3] := rfl

lemma range5 : List.range 5 = [0, 1, 2, 3, 4] := rfl

/-- The nine sections of the actual `COL_SPLITS` × `ROW_SPLITS` run. -/
lemma planSections_run :
    planSections COL_SPLITS ROW_SPLITS =
      [⟨0, 4, 0, 4, 0, 0⟩, ⟨4, 4, 0, 4, 1, 0⟩, ⟨8, 3, 0, 4, 2, 0⟩,
       ⟨0, 4, 4, 3, 0, 1⟩, ⟨4, 4, 4, 3, 1, 1⟩, ⟨8, 3, 4, 3, 2, 1⟩,
       ⟨0, 4, 7, 3, 0, 2⟩, ⟨4, 4, 7, 3, 1, 2⟩, ⟨8, 3, 7, 3, 2, 2⟩] := rfl

lemma withStartsAux_length (l : List ℕ) : ∀ i s, (withStartsAux i s l).length = l.length := by
  induction l with
  | nil => intro i s; rfl
  | cons a t ih => intro i s; simp [withStartsAux, ih]

lemma planSections_length (colSplits rowSplits : List ℕ) :
    (planSections colSplits rowSplits).length = colSplits.length * rowSplits.length := by
  unfold planSections withStarts
  rw [List.length_flatMap]
  simp only [Function.comp_def, List.length_map, withStartsAux_length]
  rw [List.map_const', List.sum_replicate, smul_eq_mul, withStartsAux_length,
    Nat.mul_comm]

/-- The horizontal strips of a `colCount = 4`, `rowCount = 4` section:
only four strips survive the `> 0.01` gate — the `r = 4` bottom strip is
dropped. -/
lemma hStrips_4_4 :
    Front.hStrips 4 4 =
      [⟨0, 0, 0, 183, 4, 3⟩, ⟨0, 78, 0, 183, 8, 3⟩,
       ⟨0, 123, 0, 183, 8, 3⟩, ⟨0, 168, 0, 183, 8, 3⟩] := by
  norm_num [Front.hStrips, Front.hStrip, Front.sectionW, Front.sectionD,
    Front.cellMargin, Front.PANEL_THICKNESS, PITCH, CUTOUT, WALL_THICKNESS,
    range5, List.filterMap_cons, Prod.ext_iff]

/-- The vertical strips of a `colCount = 4`, `rowCount = 4` section: the
`c = 4` right-edge strip is dropped by the `> 0.01` gate in every row. -/
lemma vStrips_4_4 :
    Front.vStrips 4 4 =
      [⟨0, 4, 0, 4, 37, 3⟩, ⟨78, 4, 0, 8, 37, 3⟩, ⟨123, 4, 0, 8, 37, 3⟩,
       ⟨168, 4, 0, 8, 37, 3⟩,
       ⟨0, 49, 0, 4, 37, 3⟩, ⟨78, 49, 0, 8, 37, 3⟩, ⟨123, 49, 0, 8, 37, 3⟩,
       ⟨168, 49, 0, 8, 37, 3⟩,
       ⟨0, 94, 0, 4, 37, 3⟩, ⟨78, 94, 0, 8, 37, 3⟩, ⟨123, 94, 0, 8, 37, 3⟩,
       ⟨168, 94, 0, 8, 37, 3⟩,
       ⟨0, 139, 0, 4, 37, 3⟩, ⟨78, 139, 0, 8, 37, 3⟩, ⟨123, 139, 0, 8, 37, 3⟩,
       ⟨168, 139, 0, 8, 37, 3⟩] := by
  norm_num [Front.vStrips, Front.vStrip, Front.sectionW, Front.cellMargin,
    Front.PANEL_THICKNESS, PITCH, CUTOUT, WALL_THICKNESS, range4, range5,
    List.filterMap_cons, List.flatMap_cons, Prod.ext_iff]

/-- **C6.** The Section Splitter produces exactly 9 sections for the
`[4,4,3]` × `[4,3,3]` plan over the 11×10 grid, in row-major order (outer
loop over row groups, inner loop over column groups) with running
column/row start offsets and per-plan counts; section `[0,0]` carries the
left and top border flags and section `[2,2]` the right and bottom ones. -/
theorem splitter_sections_row_major :
    planSections COL_SPLITS ROW_SPLITS =
      [⟨0, 4, 0, 4, 0, 0⟩, ⟨4, 4, 0, 4, 1, 0⟩, ⟨8, 3, 0, 4, 2, 0⟩,
       ⟨0, 4, 4, 3, 0, 1⟩, ⟨4, 4, 4, 3, 1, 1⟩, ⟨8, 3, 4, 3, 2, 1⟩,
       ⟨0, 4, 7, 3, 0, 2⟩, ⟨4, 4, 7, 3, 1, 2⟩, ⟨8, 3, 7, 3, 2, 2⟩]
    ∧ (planSections COL_SPLITS ROW_SPLITS).length = 9
    ∧ Front.hasLeftBorder 0 = true ∧ Front.hasTopBorder 0 = true
    ∧ Front.hasRightBorder 2 = true ∧ Front.hasBottomBorder 2 = true :=
  ⟨planSections_run, rfl, rfl, rfl, rfl, rfl⟩

/-- **C8.** In the L configuration (`PITCH = 45`, `CUTOUT = 37`), the
horizontal strip at row index 0 has height exactly
`cellMargin = (PITCH - CUTOUT)/2 = 4`, and every interior strip
(`0 < r < rowCount`) has height exactly `PITCH - CUTOUT = 8`. -/
theorem strip_heights (rowCount r : ℕ) :
    (Front.hStrip rowCount 0).2 = Front.cellMargin
    ∧ Front.cellMargin = (PITCH - CUTOUT) / 2
    ∧ Front.cellMargin = 4
    ∧ (0 < r → r < rowCount →
        (Front.hStrip rowCount r).2 = PITCH - CUTOUT ∧ PITCH - CUTOUT = 8) := by
  refine ⟨by simp [Front.hStrip], rfl,
    by norm_num [Front.cellMargin, PITCH, CUTOUT], fun h1 h2 => ⟨?_, by norm_num [PITCH, CUTOUT]⟩⟩
  have hr0 : r ≠ 0 := Nat.pos_iff_ne_zero.mp h1
  have hrn : r ≠ rowCount := Nat.ne_of_lt h2
  simp [Front.hStrip, hr0, hrn]

/-- **C8 witness**: the first-row strip and an interior strip of a
`rowCount = 4` section. -/
theorem strip_heights_witness :
    (Front.hStrip 4 0).2 = Front.cellMargin
    ∧ (Front.hStrip 4 2).2 = PITCH - CUTOUT :=
  ⟨(strip_heights 4 0).1,
   ((strip_heights 4 2).2.2.2 (by decide) (by decide)).1⟩

/-- **C2 (code bug).** The horizontal strip at row index `rowCount` is
*not* emitted: for the fixed L parameters its computed height is
`sectionD - stripY = WALL_THICKNESS + cellMargin - CUTOUT = -30`, which
fails the `> 0.01` gate, so a `rowCount = 4` section gets only the four
strips `r = 0..3` and no box of the section reaches past `y = 176`,
leaving the bottom margin (up to `sectionD = 183`) absent from the mesh —
contrary to the claim (and to the source's own comment announcing one more
strip at the very bottom). -/
theorem bottom_strip_skipped :
    Front.hStrip 4 4 = (213, -30)
    ∧ Front.sectionD 4 = 183
    ∧ ¬((-30 : ℚ) > 0.01)
    ∧ Front.hStrips 4 4 =
        [⟨0, 0, 0, 183, 4, 3⟩, ⟨0, 78, 0, 183, 8, 3⟩,
         ⟨0, 123, 0, 183, 8, 3⟩, ⟨0, 168, 0, 183, 8, 3⟩]
    ∧ ((Front.hStrips 4 4 ++ Front.vStrips 4 4).all
        fun b => decide (b.y + b.d ≤ 176)) = true := by
  refine ⟨by norm_num [Front.hStrip, Front.sectionD, Front.cellMargin, PITCH,
      CUTOUT, WALL_THICKNESS],
    by norm_num [Front.sectionD, PITCH, WALL_THICKNESS],
    by norm_num, hStrips_4_4, ?_⟩
  rw [hStrips_4_4, vStrips_4_4]
  simp only [List.cons_append, List.nil_append, List.all_cons, List.all_nil,
    Bool.and_eq_true, decide_eq_true_eq]
  norm_num

/-- **C3 counterexample.** With a column split plan `[4,4,4]` whose sum 12
differs from the grid's 11 columns, neither generator rejects the plan:
both still produce all 9 section outputs (files), and geometry is built
(the first section's mesh is nonempty).  No validation error exists. -/
theorem no_split_validation_cex :
    List.sum [4, 4, 4] ≠ COLS
    ∧ (Front.runFrontplate [4, 4, 4] ROW_SPLITS).length = 9
    ∧ (Back.runBackplate [4, 4, 4] ROW_SPLITS).length = 9
    ∧ (Front.runFrontplate [4, 4, 4] ROW_SPLITS).head? =
        some ("frontplate_test_0_0.stl", Front.generateFrontSection 0 4 0 4 0 0)
    ∧ (Front.generateFrontSection 0 4 0 4 0 0).mesh ≠ []
    ∧ (Back.generateSection 0 4 0 4 0 0).mesh ≠ [] := by
  refine ⟨by decide, rfl, rfl, rfl, ?_, by simp [Back.generateSection]⟩
  simp [Front.generateFrontSection, hStrips_4_4]

/-- **C3 (amended).** The generators perform no split-plan validation at
all: for *any* column/row group lists — valid sums or not — the main loops
build one section (with its geometry and output file) per
columnGroup × rowGroup pair and never raise an error. -/
theorem generator_builds_without_validation (colSplits rowSplits : List ℕ) :
    (Front.runFrontplate colSplits rowSplits).length
        = colSplits.length * rowSplits.length
    ∧ (Back.runBackplate colSplits rowSplits).length
        = colSplits.length * rowSplits.length := by
  constructor
  · rw [Front.runFrontplate, List.length_map, planSections_length]
  · rw [Back.runBackplate, List.length_map, planSections_length]

/-- **C10.** `generateFrontSection` is independent of `colStart` /
`rowStart`: the returned name, mesh and `sectionW`/`sectionD` are
identical for any two values of those arguments (the global offsets
computed from them are dead), and no ring (mount-hole / corner-dot marker)
primitive is ever part of a frontplate section mesh. -/
theorem frontSection_ignores_global_offsets
    (colStart colCount rowStart rowCount secCol secRow colStart' rowStart' : ℕ) :
    Front.generateFrontSection colStart colCount rowStart rowCount secCol secRow
      = Front.generateFrontSection colStart' colCount rowStart' rowCount secCol secRow
    ∧ ((Front.generateFrontSection colStart colCount rowStart rowCount secCol
        secRow).mesh.all fun p => !p.isRing) = true := by
  refine ⟨rfl, ?_⟩
  simp [Front.generateFrontSection, List.all_map, Function.comp, Prim.isRing,
    List.all_eq_true]

/-! ### Section footprints at their nominal grid offsets

A generated frontplate section placed at its nominal grid offset
`(colStart * PITCH, rowStart * PITCH)` spans, locally, from
`-FRAME_BORDER` (when the left/top border box is present) to
`sectionW/sectionD` plus `FRAME_BORDER` (when the right/bottom border box
is present); the spanned width/depth is exactly the returned `retW` /
`retD`. -/

/-- Global x-interval covered by a section's local footprint. -/
def footprintX (s : SectionInfo) : ℚ × ℚ :=
  ((s.colStart : ℚ) * PITCH -
      (if Front.hasLeftBorder s.secCol then FRAME_BORDER else 0),
   (s.colStart : ℚ) * PITCH -
      (if Front.hasLeftBorder s.secCol then FRAME_BORDER else 0) +
     (Front.generateFrontSection s.colStart s.colCount s.rowStart s.rowCount
        s.secCol s.secRow).retW)

/-- Global y-interval covered by a section's local footprint. -/
def footprintY (s : SectionInfo) : ℚ × ℚ :=
  ((s.rowStart : ℚ) * PITCH -
      (if Front.hasTopBorder s.secRow then FRAME_BORDER else 0),
   (s.rowStart : ℚ) * PITCH -
      (if Front.hasTopBorder s.secRow then FRAME_BORDER else 0) +
     (Front.generateFrontSection s.colStart s.colCount s.rowStart s.rowCount
        s.secCol s.secRow).retD)

/-- **C1 counterexample.** The first two column sections of the run
overlap: section `[0,0]`'s footprint reaches `x = 183` while section
`[1,0]` starts at `x = 180` (the 3 mm shared wall is contained in both),
and the reassembled width is `528`, not
`totalColumns × pitch + 2 × borderWidth = 525` — so the claimed zero
overlap and exact 525 mm reconstruction both fail. -/
theorem footprint_reassembly_cex :
    (⟨0, 4, 0, 4, 0, 0⟩ : SectionInfo) ∈ planSections COL_SPLITS ROW_SPLITS
    ∧ (⟨4, 4, 0, 4, 1, 0⟩ : SectionInfo) ∈ planSections COL_SPLITS ROW_SPLITS
    ∧ (⟨8, 3, 0, 4, 2, 0⟩ : SectionInfo) ∈ planSections COL_SPLITS ROW_SPLITS
    ∧ footprintX ⟨0, 4, 0, 4, 0, 0⟩ = (-15, 183)
    ∧ footprintX ⟨4, 4, 0, 4, 1, 0⟩ = (180, 363)
    ∧ (footprintX ⟨4, 4, 0, 4, 1, 0⟩).1 < (footprintX ⟨0, 4, 0, 4, 0, 0⟩).2
    ∧ (footprintX ⟨8, 3, 0, 4, 2, 0⟩).2 - (footprintX ⟨0, 4, 0, 4, 0, 0⟩).1 = 528
    ∧ (COLS : ℚ) * PITCH + 2 * FRAME_BORDER = 525
    ∧ (528 : ℚ) ≠ 525 := by
  refine ⟨by simp [planSections_run], by simp [planSections_run],
    by simp [planSections_run], ?_, ?_, ?_, ?_,
    by norm_num [COLS, PITCH, FRAME_BORDER], by norm_num⟩ <;>
  norm_num [footprintX, Front.generateFrontSection, Front.sectionW,
    Front.sectionD, Front.hasLeftBorder, Front.hasRightBorder, COL_SPLITS,
    PITCH, WALL_THICKNESS, FRAME_BORDER, Prod.ext_iff]

/-- **C1 (amended).** Placing every section's local footprint at its
nominal grid offset covers, per axis, the contiguous interval from
`-FRAME_BORDER` to `grid + WALL_THICKNESS + FRAME_BORDER` with no gap —
but adjacent sections overlap by exactly `WALL_THICKNESS` (each section's
width `colCount × pitch + wallThickness` includes the wall shared with its
neighbour), so the reassembled panel is
`totalColumns × pitch + wallThickness + 2 × borderWidth = 528` wide (and
`totalRows × pitch + wallThickness + 2 × borderWidth = 483` high), not
525 × 480. -/
theorem footprint_reassembly_amended :
    footprintX ⟨0, 4, 0, 4, 0, 0⟩ = (-15, 183)
    ∧ footprintX ⟨4, 4, 0, 4, 1, 0⟩ = (180, 363)
    ∧ footprintX ⟨8, 3, 0, 4, 2, 0⟩ = (360, 513)
    ∧ (footprintX ⟨0, 4, 0, 4, 0, 0⟩).2 - (footprintX ⟨4, 4, 0, 4, 1, 0⟩).1
        = WALL_THICKNESS
    ∧ (footprintX ⟨4, 4, 0, 4, 1, 0⟩).2 - (footprintX ⟨8, 3, 0, 4, 2, 0⟩).1
        = WALL_THICKNESS
    ∧ (footprintX ⟨4, 4, 0, 4, 1, 0⟩).1 ≤ (footprintX ⟨0, 4, 0, 4, 0, 0⟩).2
    ∧ (footprintX ⟨8, 3, 0, 4, 2, 0⟩).1 ≤ (footprintX ⟨4, 4, 0, 4, 1, 0⟩).2
    ∧ (footprintX ⟨8, 3, 0, 4, 2, 0⟩).2 - (footprintX ⟨0, 4, 0, 4, 0, 0⟩).1
        = (COLS : ℚ) * PITCH + WALL_THICKNESS + 2 * FRAME_BORDER
    ∧ footprintY ⟨0, 4, 0, 4, 0, 0⟩ = (-15, 183)
    ∧ footprintY ⟨0, 4, 4, 3, 0, 1⟩ = (180, 318)
    ∧ footprintY ⟨0, 4, 7, 3, 0, 2⟩ = (315, 468)
    ∧ (footprintY ⟨0, 4, 0, 4, 0, 0⟩).2 - (footprintY ⟨0, 4, 4, 3, 0, 1⟩).1
        = WALL_THICKNESS
    ∧ (footprintY ⟨0, 4, 4, 3, 0, 1⟩).2 - (footprintY ⟨0, 4, 7, 3, 0, 2⟩).1
        = WALL_THICKNESS
    ∧ (footprintY ⟨0, 4, 4, 3, 0, 1⟩).1 ≤ (footprintY ⟨0, 4, 0, 4, 0, 0⟩).2
    ∧ (footprintY ⟨0, 4, 7, 3, 0, 2⟩).1 ≤ (footprintY ⟨0, 4, 4, 3, 0, 1⟩).2
    ∧ (footprintY ⟨0, 4, 7, 3, 0, 2⟩).2 - (footprintY ⟨0, 4, 0, 4, 0, 0⟩).1
        = (ROWS : ℚ) * PITCH + WALL_THICKNESS + 2 * FRAME_BORDER := by
  refine ⟨?_, ?_, ?_, ?_, ?_, ?_, ?_, ?_, ?_, ?_, ?_, ?_, ?_, ?_, ?_, ?_⟩ <;>
  norm_num [footprintX, footprintY, Front.generateFrontSection, Front.sectionW,
    Front.sectionD, Front.hasLeftBorder, Front.hasRightBorder,
    Front.hasTopBorder, Front.hasBottomBorder, COL_SPLITS, ROW_SPLITS, COLS,
    ROWS, PITCH, WALL_THICKNESS, FRAME_BORDER, Prod.ext_iff]

/-- **C5.** Every interior divider segment (vertical and horizontal) is
emitted as exactly three boxes: one full-length box from notch height to
wall height, plus two flanking boxes below notch height of length
`(cellInner - WIRE_NOTCH_W)/2 = 19` each — and the two flank lengths plus
the notch width reconstruct `cellInner = PITCH - WALL_THICKNESS` exactly. -/
theorem interior_divider_notch (colCount rowCount c r : ℕ)
    (hc1 : 0 < c) (hc2 : c < colCount) (hr1 : 0 < r) (hr2 : r < rowCount) :
    Back.vWallBoxes colCount c r =
      [⟨(c : ℚ) * PITCH, (r : ℚ) * PITCH + WALL_THICKNESS,
        Back.BASE_THICKNESS + Back.WIRE_NOTCH_H, WALL_THICKNESS, Back.cellInner,
        Back.WALL_HEIGHT - Back.WIRE_NOTCH_H⟩,
       ⟨(c : ℚ) * PITCH, (r : ℚ) * PITCH + WALL_THICKNESS, Back.BASE_THICKNESS,
        WALL_THICKNESS, (Back.cellInner - Back.WIRE_NOTCH_W) / 2,
        Back.WIRE_NOTCH_H⟩,
       ⟨(c : ℚ) * PITCH,
        (r : ℚ) * PITCH + WALL_THICKNESS +
          (Back.cellInner - Back.WIRE_NOTCH_W) / 2 + Back.WIRE_NOTCH_W,
        Back.BASE_THICKNESS, WALL_THICKNESS,
        (Back.cellInner - Back.WIRE_NOTCH_W) / 2, Back.WIRE_NOTCH_H⟩]
    ∧ Back.hWallBoxes rowCount r c =
      [⟨(c : ℚ) * PITCH + WALL_THICKNESS, (r : ℚ) * PITCH,
        Back.BASE_THICKNESS + Back.WIRE_NOTCH_H, Back.cellInner, WALL_THICKNESS,
        Back.WALL_HEIGHT - Back.WIRE_NOTCH_H⟩,
       ⟨(c : ℚ) * PITCH + WALL_THICKNESS, (r : ℚ) * PITCH, Back.BASE_THICKNESS,
        (Back.cellInner - Back.WIRE_NOTCH_W) / 2, WALL_THICKNESS,
        Back.WIRE_NOTCH_H⟩,
       ⟨(c : ℚ) * PITCH + WALL_THICKNESS +
          (Back.cellInner - Back.WIRE_NOTCH_W) / 2 + Back.WIRE_NOTCH_W,
        (r : ℚ) * PITCH, Back.BASE_THICKNESS,
        (Back.cellInner - Back.WIRE_NOTCH_W) / 2, WALL_THICKNESS,
        Back.WIRE_NOTCH_H⟩]
    ∧ (Back.cellInner - Back.WIRE_NOTCH_W) / 2 = 19
    ∧ (Back.cellInner - Back.WIRE_NOTCH_W) / 2 + Back.WIRE_NOTCH_W
        + (Back.cellInner - Back.WIRE_NOTCH_W) / 2 = Back.cellInner
    ∧ Back.cellInner = PITCH - WALL_THICKNESS := by
  have hcond : 0 < c ∧ c < colCount := ⟨hc1, hc2⟩
  have hrcond : 0 < r ∧ r < rowCount := ⟨hr1, hr2⟩
  refine ⟨by simp [Back.vWallBoxes, hcond], by simp [Back.hWallBoxes, hrcond],
    by norm_num [Back.cellInner, Back.WIRE_NOTCH_W, PITCH, WALL_THICKNESS],
    by norm_num [Back.cellInner, Back.WIRE_NOTCH_W, PITCH, WALL_THICKNESS],
    rfl⟩

/-- **C5 witness**: the flank/notch partition at divider `(1,1)` of a 2×2
section. -/
theorem interior_divider_notch_witness :
    (Back.cellInner - Back.WIRE_NOTCH_W) / 2 + Back.WIRE_NOTCH_W
      + (Back.cellInner - Back.WIRE_NOTCH_W) / 2 = Back.cellInner :=
  (interior_divider_notch 2 2 1 1 (by decide) (by decide) (by decide)
    (by decide)).2.2.2.1

/-- **C7.** Interlocking tabs are one-sided and present exactly when a
neighbour exists: the right-edge tab pair is emitted iff
`secCol < COL_SPLITS.length - 1` and the top-edge pair iff
`secRow < ROW_SPLITS.length - 1`; each such edge gets exactly two tab
boxes, centred at 1/3 and 2/3 of the shared edge length
(y-start `edge*(t+1)/3 - TAB_WIDTH/2` for `t = 0, 1`), with the fixed
`TAB_DEPTH × TAB_WIDTH × TAB_HEIGHT` dimensions.  No recess/slot is ever
generated: edge divider walls (`c = 0`, `c = colCount`, `r = 0`,
`r = rowCount`) are always emitted as one solid full-height box. -/
theorem tabs_one_sided (colCount rowCount secCol secRow c r : ℕ) :
    Back.tabsRight colCount rowCount secCol =
      (if secCol < COL_SPLITS.length - 1 then
        [⟨Back.sectionW colCount,
          Back.sectionD rowCount * 1 / 3 - Back.TAB_WIDTH / 2,
          Back.BASE_THICKNESS, Back.TAB_DEPTH, Back.TAB_WIDTH, Back.TAB_HEIGHT⟩,
         ⟨Back.sectionW colCount,
          Back.sectionD rowCount * 2 / 3 - Back.TAB_WIDTH / 2,
          Back.BASE_THICKNESS, Back.TAB_DEPTH, Back.TAB_WIDTH, Back.TAB_HEIGHT⟩]
       else [])
    ∧ Back.tabsTop colCount rowCount secRow =
      (if secRow < ROW_SPLITS.length - 1 then
        [⟨Back.sectionW colCount * 1 / 3 - Back.TAB_WIDTH / 2,
          Back.sectionD rowCount,
          Back.BASE_THICKNESS, Back.TAB_WIDTH, Back.TAB_DEPTH, Back.TAB_HEIGHT⟩,
         ⟨Back.sectionW colCount * 2 / 3 - Back.TAB_WIDTH / 2,
          Back.sectionD rowCount,
          Back.BASE_THICKNESS, Back.TAB_WIDTH, Back.TAB_DEPTH, Back.TAB_HEIGHT⟩]
       else [])
    ∧ Back.vWallBoxes colCount 0 r =
      [⟨0, (r : ℚ) * PITCH + WALL_THICKNESS, Back.BASE_THICKNESS,
        WALL_THICKNESS, Back.cellInner, Back.WALL_HEIGHT⟩]
    ∧ Back.vWallBoxes colCount colCount r =
      [⟨(colCount : ℚ) * PITCH, (r : ℚ) * PITCH + WALL_THICKNESS,
        Back.BASE_THICKNESS, WALL_THICKNESS, Back.cellInner, Back.WALL_HEIGHT⟩]
    ∧ Back.hWallBoxes rowCount 0 c =
      [⟨(c : ℚ) * PITCH + WALL_THICKNESS, 0, Back.BASE_THICKNESS,
        Back.cellInner, WALL_THICKNESS, Back.WALL_HEIGHT⟩]
    ∧ Back.hWallBoxes rowCount rowCount c =
      [⟨(c : ℚ) * PITCH + WALL_THICKNESS, (rowCount : ℚ) * PITCH,
        Back.BASE_THICKNESS, Back.cellInner, WALL_THICKNESS,
        Back.WALL_HEIGHT⟩] := by
  refine ⟨?_, ?_, by simp [Back.vWallBoxes], by simp [Back.vWallBoxes],
    by simp [Back.hWallBoxes], by simp [Back.hWallBoxes]⟩
  · by_cases h : secCol < COL_SPLITS.length - 1
    · simp [Back.tabsRight, h, range2]
      norm_num
    · simp [Back.tabsRight, h]
  · by_cases h : secRow < ROW_SPLITS.length - 1
    · simp [Back.tabsTop, h, range2]
      norm_num
    · simp [Back.tabsTop, h]

end WordClock
